import Mathlib

/-!
Shallow embedding of `models/axial_to_lateral_gan_artemis_model.py`
(the volume slicing/projection engine and the loss-composition logic of
the `AxialToLateralGANArtemisModel` training step).

Tensors are modelled as extents plus a total data function on natural
indices; reads outside the extents are junk values no theorem relies on.
NumPy's random draws are threaded explicitly: each `np.random.randint`
call takes a raw draw `r : Nat` and returns `low + r % (high - low)`,
whose support is exactly `[low, high)`.  Fallible calls return
`Except String`; the Python function value `None` is `Option.none`.
Scalar losses are rationals; the GAN criterion and the networks are
opaque parameters, `torch.nn.L1Loss` is the mean absolute difference.
Autograd bookkeeping (`backward`, `requires_grad`, optimizer steps) has
no value-level content and is not modelled.
-/

set_option maxHeartbeats 1000000

/-- A 4D tensor (batch, channel, height, width): extents plus a total data
function. -/
structure Tensor4 where
  n : Nat
  c : Nat
  h : Nat
  w : Nat
  data : Nat → Nat → Nat → Nat → Int

/-- A 5D tensor (batch, channel, depth, height, width): extents plus a total
data function. -/
structure Tensor5 where
  n : Nat
  c : Nat
  d : Nat
  h : Nat
  w : Nat
  data : Nat → Nat → Nat → Nat → Nat → Int

/-- Value-level semantics of `torch.Tensor.detach`: same tensor data (cutting
the autograd graph does not change values). -/
def Tensor5.detach (t : Tensor5) : Tensor5 := t

/-- Extent of the dimension that slicing axis `a` selects: axis 0 selects the
depth dimension, axis 1 the height dimension, axis 2 the width dimension. -/
def Tensor5.axis_extent (t : Tensor5) (a : Nat) : Nat :=
  match a with
  | 0 => t.d
  | 1 => t.h
  | 2 => t.w
  | _ => 0

/-- The value of `t` seen at output position `(b, c, p, q)` of an axis-`a`
projection, as a function of the running index `k` along the projected
dimension. -/
def Tensor5.at_axis (t : Tensor5) (a b c p q k : Nat) : Int :=
  if a = 0 then t.data b c k p q
  else if a = 1 then t.data b c p k q
  else t.data b c p q k

/-- Mean absolute difference over the extents: `torch.nn.L1Loss` applied to
two 4D tensors of the same shape. -/
def Tensor4.l1 (a b : Tensor4) : ℚ :=
  ((∑ i ∈ Finset.range a.n, ∑ j ∈ Finset.range a.c, ∑ y ∈ Finset.range a.h,
      ∑ x ∈ Finset.range a.w, |a.data i j y x - b.data i j y x| : ℤ) : ℚ) /
    ((a.n * a.c * a.h * a.w : ℕ) : ℚ)

/-- Mean absolute difference over the extents: `torch.nn.L1Loss` applied to
two 5D tensors of the same shape. -/
def Tensor5.l1 (a b : Tensor5) : ℚ :=
  ((∑ i ∈ Finset.range a.n, ∑ j ∈ Finset.range a.c, ∑ z ∈ Finset.range a.d,
      ∑ y ∈ Finset.range a.h, ∑ x ∈ Finset.range a.w,
        |a.data i j z y x - b.data i j z y x| : ℤ) : ℚ) /
    ((a.n * a.c * a.d * a.h * a.w : ℕ) : ℚ)

/-- Maximum of `f` over `lo, lo+1, …, lo+len-1` (the value at `lo` when
`len = 0`; callers only use `len > 0`): models `torch.max(values, dim)[0]`
along one dimension. -/
def rangeMax (f : Nat → Int) (lo : Nat) : Nat → Int
  | 0 => f lo
  | len + 1 => max (rangeMax f lo len) (f (lo + len))

/-- `np.random.randint(low, high)` driven by an explicit raw draw `r`: the
result is `low + r % (high - low)`, whose support is exactly `[low, high)`;
NumPy raises `ValueError` when `high <= low`. -/
def randint (low high r : Nat) : Except String Nat :=
  if low < high then .ok (low + r % (high - low))
  else .error "ValueError: low >= high"

/-- `Volume.__init__` (lines 406–408): wraps the 5D tensor (the device move is
a no-op here) and sets `num_slice = vol.shape[-1]`, the width extent. -/
structure Volume where
  volume : Tensor5
  num_slice : Nat

/-- Construction of a `Volume` as `__init__` performs it: `num_slice` is the
extent of the last (width) dimension. -/
def Volume.ofTensor (vol : Tensor5) : Volume :=
  { volume := vol, num_slice := vol.w }

/-- `Volume.get_slice` (lines 411–425): picks `slice_index`, or a random index
in `[0, num_slice)` when `pick_random` (drawn through `randint`, which can
raise), then dispatches on `slice_axis`.  PyTorch integer indexing raises
`IndexError` when the picked index is outside the chosen dimension's extent
(Python's negative-index aliasing is unreachable from this code, whose
indices come from `range` and `randint`, so indices are naturals here).  An
axis outside {0,1,2} matches no branch and the Python function returns
`None`: that is `.ok none`, not an exception. -/
def Volume.get_slice (v : Volume) (slice_index slice_axis : Nat)
    (pick_random : Bool) (r : Nat) : Except String (Option Tensor4) := do
  let slice_index_pick ← if pick_random then randint 0 v.num_slice r
                         else pure slice_index
  if slice_axis = 0 then
    if slice_index_pick < v.volume.d then
      pure (some ⟨v.volume.n, v.volume.c, v.volume.h, v.volume.w,
        fun b ch y x => v.volume.data b ch slice_index_pick y x⟩)
    else .error "IndexError: index out of range for dimension 2"
  else if slice_axis = 1 then
    if slice_index_pick < v.volume.h then
      pure (some ⟨v.volume.n, v.volume.c, v.volume.d, v.volume.w,
        fun b ch z x => v.volume.data b ch z slice_index_pick x⟩)
    else .error "IndexError: index out of range for dimension 3"
  else if slice_axis = 2 then
    if slice_index_pick < v.volume.w then
      pure (some ⟨v.volume.n, v.volume.c, v.volume.d, v.volume.h,
        fun b ch z y => v.volume.data b ch z y slice_index_pick⟩)
    else .error "IndexError: index out of range for dimension 4"
  else
    pure none

/-- `Volume.set_slice` (lines 427–435): writes `new_slice` at `slice_index`
along `slice_axis`, in place (modelled by returning the updated volume).
PyTorch raises `IndexError` on an out-of-range index and `RuntimeError` when
`new_slice` does not fit the addressed slot (PyTorch also accepts shapes that
merely broadcast to the slot; every call in this code writes a full
slot-shaped slice, and the model requires that exact shape).  An axis outside
{0,1,2} matches no branch: the volume is returned unchanged and nothing is
raised. -/
def Volume.set_slice (v : Volume) (slice_index slice_axis : Nat)
    (new_slice : Tensor4) : Except String Volume :=
  if slice_axis = 0 then
    if slice_index < v.volume.d then
      if new_slice.n = v.volume.n ∧ new_slice.c = v.volume.c ∧
         new_slice.h = v.volume.h ∧ new_slice.w = v.volume.w then
        .ok { v with volume := { v.volume with data := fun b ch z y x =>
          (if z = slice_index then new_slice.data b ch y x
           else v.volume.data b ch z y x) } }
      else .error "RuntimeError: shape mismatch in slice assignment"
    else .error "IndexError: index out of range for dimension 2"
  else if slice_axis = 1 then
    if slice_index < v.volume.h then
      if new_slice.n = v.volume.n ∧ new_slice.c = v.volume.c ∧
         new_slice.h = v.volume.d ∧ new_slice.w = v.volume.w then
        .ok { v with volume := { v.volume with data := fun b ch z y x =>
          (if y = slice_index then new_slice.data b ch z x
           else v.volume.data b ch z y x) } }
      else .error "RuntimeError: shape mismatch in slice assignment"
    else .error "IndexError: index out of range for dimension 3"
  else if slice_axis = 2 then
    if slice_index < v.volume.w then
      if new_slice.n = v.volume.n ∧ new_slice.c = v.volume.c ∧
         new_slice.h = v.volume.d ∧ new_slice.w = v.volume.h then
        .ok { v with volume := { v.volume with data := fun b ch z y x =>
          (if x = slice_index then new_slice.data b ch z y
           else v.volume.data b ch z y x) } }
      else .error "RuntimeError: shape mismatch in slice assignment"
    else .error "IndexError: index out of range for dimension 4"
  else .ok v

/-- Lines 440–450 of `Volume.get_projection`, after the random start index has
been drawn: slices `[start_index, start_index+depth)` along the dimension that
`slice_axis` selects (Python slicing clips the range to the dimension's
extent), then reduces by `torch.max` along dimension `slice_axis + 2`.
`torch.max` raises on an empty reduction dimension; an axis outside {0,1,2}
leaves `volume_ROI` unassigned and the function raises `UnboundLocalError`. -/
def Volume.get_projection_roi (v : Volume) (depth slice_axis start_index : Nat) :
    Except String Tensor4 :=
  if slice_axis = 0 then
    let lo := min start_index v.volume.d
    let hi := min (start_index + depth) v.volume.d
    if lo < hi then
      .ok ⟨v.volume.n, v.volume.c, v.volume.h, v.volume.w,
        fun b ch y x => rangeMax (fun z => v.volume.data b ch z y x) lo (hi - lo)⟩
    else .error "RuntimeError: max on an empty slice range"
  else if slice_axis = 1 then
    let lo := min start_index v.volume.h
    let hi := min (start_index + depth) v.volume.h
    if lo < hi then
      .ok ⟨v.volume.n, v.volume.c, v.volume.d, v.volume.w,
        fun b ch z x => rangeMax (fun y => v.volume.data b ch z y x) lo (hi - lo)⟩
    else .error "RuntimeError: max on an empty slice range"
  else if slice_axis = 2 then
    let lo := min start_index v.volume.w
    let hi := min (start_index + depth) v.volume.w
    if lo < hi then
      .ok ⟨v.volume.n, v.volume.c, v.volume.d, v.volume.h,
        fun b ch z y => rangeMax (fun x => v.volume.data b ch z y x) lo (hi - lo)⟩
    else .error "RuntimeError: max on an empty slice range"
  else .error "UnboundLocalError: volume_ROI referenced before assignment"

/-- `Volume.get_projection` (lines 437–450): draws
`start_index = np.random.randint(0, self.num_slice - depth)` — the bound uses
`num_slice`, the width extent, whatever `slice_axis` is, and the draw raises
whenever `depth >= num_slice` — then extracts and max-reduces the window. -/
def Volume.get_projection (v : Volume) (depth slice_axis r : Nat) :
    Except String Tensor4 := do
  let start_index ← randint 0 (v.num_slice - depth) r
  v.get_projection_roi depth slice_axis start_index

/-- `Volume.get_volume` (lines 452–453). -/
def Volume.get_volume (v : Volume) : Tensor5 := v.volume

namespace AxialToLateralGANArtemisModel

/-- Line 104: the target slicing axis is the XY plane, axis 0. -/
def target_sl_axis : Nat := 0

/-- Lines 182–183 of `set_input`: `num_slice = cube_shape[-3]`, the depth
extent of the real cube. -/
def num_slice (real : Tensor5) : Nat := real.d

/-- The collaborators and configuration one optimization step reads.  The
networks are opaque maps; `criterionGAN` is the configured GAN-loss kernel,
given by its action on the 5D per-slice prediction stacks and (as
`criterionGAN_mip`) on the 4D projection predictions; the lambda fields are
the configured weights, with `lambda_plane_target`, `lambda_slice` and
`lambda_proj` already normalized as in lines 99–100. -/
structure ModelParams where
  netG_A : Tensor5 → Tensor5
  netG_B : Tensor5 → Tensor5
  netD_A_axial : Tensor4 → Tensor4
  netD_A_lateral : Tensor4 → Tensor4
  netD_A_axial_proj : Tensor4 → Tensor4
  netD_B_axial : Tensor4 → Tensor4
  netD_B_lateral : Tensor4 → Tensor4
  netD_B_axial_proj : Tensor4 → Tensor4
  criterionGAN : Tensor5 → Bool → ℚ
  criterionGAN_mip : Tensor4 → Bool → ℚ
  lambda_A : ℚ
  lambda_lateralpreserve : ℚ
  lambda_plane_target : ℚ
  lambda_slice : ℚ
  lambda_proj : ℚ
  mix_planes : Bool
  projection_depth : Nat

/-- The slice loop of `iter_f` (`for i in range(num_slice)`, lines 391–394),
processing indices `0, …, count-1` in order: each iteration reads slice `i`
along `slice_axis` from the input volume, applies the discriminator, and
writes the result at index `i` along axis 0 of the output volume.  The first
raising `get_slice` or `set_slice` aborts the loop with its exception; a
`None` slice makes the discriminator call raise. -/
def iter_f_loop (input_tensor : Volume) (function : Tensor4 → Tensor4)
    (slice_axis : Nat) (out : Volume) : Nat → Except String Volume
  | 0 => .ok out
  | i + 1 => do
    let out' ← iter_f_loop input_tensor function slice_axis out i
    let sliced ← input_tensor.get_slice i slice_axis false 0
    match sliced with
    | some input_slice => out'.set_slice i 0 (function input_slice)
    | none => .error "TypeError: discriminator applied to None"

/-- `iter_f` (lines 383–396): applies `function` (a 2D discriminator) to every
index in `range(self.num_slice)` along `slice_axis` and stacks the outputs
along axis 0 of a zero tensor shaped from the first slice's output.
`num_slice` is the model attribute set in `set_input`, passed explicitly.
The probing `get_slice(0, slice_axis)` runs before the loop and can raise;
when `slice_axis` is invalid, `get_slice` returns `None` and the
discriminator call on `None` raises. -/
def iter_f (num_slice : Nat) (input : Tensor5) (function : Tensor4 → Tensor4)
    (slice_axis : Nat) : Except String Tensor5 := do
  let input_tensor := Volume.ofTensor input
  let first ← input_tensor.get_slice 0 slice_axis false 0
  match first with
  | some s =>
    let test_slice := function s
    let output_tensor := Volume.ofTensor
      ⟨test_slice.n, test_slice.c, num_slice, test_slice.h, test_slice.w,
        fun _ _ _ _ _ => 0⟩
    let result ← iter_f_loop input_tensor function slice_axis output_tensor
                   num_slice
    pure result.get_volume
  | none => .error "TypeError: discriminator applied to None"

/-- `proj_f` (lines 398–402): one MIP via `get_projection` (one random start
draw `r`), then the discriminator on it. -/
def proj_f (projection_depth : Nat) (input : Tensor5)
    (function : Tensor4 → Tensor4) (slice_axis r : Nat) :
    Except String Tensor4 := do
  let mip ← (Volume.ofTensor input).get_projection projection_depth slice_axis r
  pure (function mip)

/-- `backward_D_basic` (lines 203–230): per-slice GAN loss of one
discriminator against the real volume and the detached fake volume
(`loss_D.backward()` is autograd bookkeeping, not modelled). -/
def backward_D_basic (criterionGAN : Tensor5 → Bool → ℚ) (num_slice : Nat)
    (netD : Tensor4 → Tensor4) (real fake : Tensor5)
    (slice_axis_real slice_axis_fake : Nat) : Except String ℚ := do
  let pred_real ← iter_f num_slice real netD slice_axis_real
  let pred_fake ← iter_f num_slice (Tensor5.detach fake) netD slice_axis_fake
  let loss_D_real := criterionGAN pred_real true
  let loss_D_fake := criterionGAN pred_fake false
  pure ((loss_D_real + loss_D_fake) * (1 / 2))

/-- `backward_D_projection` (lines 232–258): projection GAN loss of one
discriminator against the real volume and the detached fake volume; each
`proj_f` call draws its own random start (`r_real`, `r_fake`). -/
def backward_D_projection (criterionGAN_mip : Tensor4 → Bool → ℚ)
    (projection_depth : Nat) (netD : Tensor4 → Tensor4) (real fake : Tensor5)
    (slice_axis_real slice_axis_fake r_real r_fake : Nat) :
    Except String ℚ := do
  let pred_real ← proj_f projection_depth real netD slice_axis_real r_real
  let pred_fake ← proj_f projection_depth (Tensor5.detach fake) netD
                    slice_axis_fake r_fake
  let loss_D_real := criterionGAN_mip pred_real true
  let loss_D_fake := criterionGAN_mip pred_fake false
  pure ((loss_D_real + loss_D_fake) * (1 / 2))

/-- `backward_D_A_lateral` (lines 260–262). -/
def backward_D_A_lateral (P : ModelParams) (num_slice : Nat)
    (real fake : Tensor5) : Except String ℚ :=
  backward_D_basic P.criterionGAN num_slice P.netD_A_lateral real fake
    target_sl_axis target_sl_axis

/-- `backward_D_A_axial` (lines 264–267). -/
def backward_D_A_axial (P : ModelParams) (num_slice : Nat)
    (real fake : Tensor5) (source_sl_axis : Nat) : Except String ℚ :=
  backward_D_basic P.criterionGAN num_slice P.netD_A_axial real fake
    target_sl_axis source_sl_axis

/-- `backward_D_A_axial_proj` (lines 269–280): with `mix_planes` the compare
axis is 0 when the source axis is 1 and 1 otherwise; without the flag it is
the source axis itself. -/
def backward_D_A_axial_proj (P : ModelParams) (real fake : Tensor5)
    (source_sl_axis r_real r_fake : Nat) : Except String ℚ :=
  let compare_sl_axis :=
    if P.mix_planes then (if source_sl_axis = 1 then 0 else 1)
    else source_sl_axis
  backward_D_projection P.criterionGAN_mip P.projection_depth
    P.netD_A_axial_proj real fake target_sl_axis compare_sl_axis r_real r_fake

/-- `backward_D_B_lateral` (lines 282–284). -/
def backward_D_B_lateral (P : ModelParams) (num_slice : Nat)
    (real rec' : Tensor5) : Except String ℚ :=
  backward_D_basic P.criterionGAN num_slice P.netD_B_lateral real rec'
    target_sl_axis target_sl_axis

/-- `backward_D_B_axial` (lines 286–289). -/
def backward_D_B_axial (P : ModelParams) (num_slice : Nat)
    (real rec' : Tensor5) (source_sl_axis : Nat) : Except String ℚ :=
  backward_D_basic P.criterionGAN num_slice P.netD_B_axial real rec'
    source_sl_axis source_sl_axis

/-- `backward_D_B_axial_proj` (lines 291–302): same compare-axis computation
as `backward_D_A_axial_proj`; here the compare axis is used for the real and
the fake side alike. -/
def backward_D_B_axial_proj (P : ModelParams) (real rec' : Tensor5)
    (source_sl_axis r_real r_fake : Nat) : Except String ℚ :=
  let compare_sl_axis :=
    if P.mix_planes then (if source_sl_axis = 1 then 0 else 1)
    else source_sl_axis
  backward_D_projection P.criterionGAN_mip P.projection_depth
    P.netD_B_axial_proj real rec' compare_sl_axis compare_sl_axis r_real r_fake

/-- The scalar losses one `backward_G` call computes. -/
structure GLosses where
  loss_G_A_lateral : ℚ
  loss_G_A_axial : ℚ
  loss_G_A_axial_proj : ℚ
  loss_G_A : ℚ
  loss_G_B_lateral : ℚ
  loss_G_B_axial : ℚ
  loss_G_B_axial_proj : ℚ
  loss_G_B : ℚ
  loss_cycle : ℚ
  loss_lateral_preserve : ℚ
  loss_G : ℚ

/-- `backward_G` (lines 304–345).  Four separate `np.random.randint` draws
occur inside it: `r_proj_A` and `r_proj_B` for the two `proj_f` calls, and
`r_real_proj`, `r_fake_proj` for the two lateral projections of the
lateral-preservation term (each `get_projection` call draws its own start). -/
def backward_G (P : ModelParams) (num_slice : Nat) (real fake rec' : Tensor5)
    (source_sl_axis r_proj_A r_proj_B r_real_proj r_fake_proj : Nat) :
    Except String GLosses := do
  let remain_sl_axis :=
    if P.mix_planes then (if source_sl_axis = 1 then 0 else 1)
    else source_sl_axis
  let pA_lateral ← iter_f num_slice fake P.netD_A_lateral target_sl_axis
  let loss_G_A_lateral := P.criterionGAN pA_lateral true * P.lambda_plane_target
  let pA_axial ← iter_f num_slice fake P.netD_A_axial source_sl_axis
  let loss_G_A_axial := P.criterionGAN pA_axial true * P.lambda_slice
  let pA_proj ← proj_f P.projection_depth fake P.netD_A_axial_proj
                  remain_sl_axis r_proj_A
  let loss_G_A_axial_proj := P.criterionGAN_mip pA_proj true * P.lambda_proj
  let loss_G_A := loss_G_A_lateral + loss_G_A_axial + loss_G_A_axial_proj
  let pB_lateral ← iter_f num_slice rec' P.netD_B_lateral target_sl_axis
  let loss_G_B_lateral := P.criterionGAN pB_lateral true * P.lambda_plane_target
  let pB_axial ← iter_f num_slice rec' P.netD_B_axial source_sl_axis
  let loss_G_B_axial := P.criterionGAN pB_axial true * P.lambda_slice
  let pB_proj ← proj_f P.projection_depth rec' P.netD_B_axial_proj
                  remain_sl_axis r_proj_B
  let loss_G_B_axial_proj := P.criterionGAN_mip pB_proj true * P.lambda_proj
  let loss_G_B := loss_G_B_lateral + loss_G_B_axial + loss_G_B_axial_proj
  let loss_cycle := Tensor5.l1 rec' real * P.lambda_A
  let real_lateral_proj ← (Volume.ofTensor real).get_projection
                            P.projection_depth 0 r_real_proj
  let fake_lateral_proj ← (Volume.ofTensor fake).get_projection
                            P.projection_depth 0 r_fake_proj
  let loss_lateral_preserve :=
    Tensor4.l1 real_lateral_proj fake_lateral_proj * P.lambda_lateralpreserve
  let loss_G := loss_G_A + loss_G_B + loss_cycle + loss_lateral_preserve
  pure ⟨loss_G_A_lateral, loss_G_A_axial, loss_G_A_axial_proj, loss_G_A,
        loss_G_B_lateral, loss_G_B_axial, loss_G_B_axial_proj, loss_G_B,
        loss_cycle, loss_lateral_preserve, loss_G⟩

/-- The spec's complement rule for the projection axis, stated on its own so
the three code paths can be compared against one rule: when `mix_planes` is
set the projection axis is 0 if the source axis is 1 and 1 otherwise; when it
is unset, the projection axis is the source slicing axis itself. -/
def complement_axis (mix_planes : Bool) (source_sl_axis : Nat) : Nat :=
  if mix_planes then (if source_sl_axis = 1 then 0 else 1) else source_sl_axis

/-- `backward_G` with the internally computed `remain_sl_axis` made an
explicit parameter (the body is otherwise that of `backward_G`); used to
state which projection axis the generator loss routes to the
axial-projection heads. -/
def backward_G_remain (P : ModelParams) (num_slice : Nat)
    (real fake rec' : Tensor5)
    (source_sl_axis remain_sl_axis r_proj_A r_proj_B r_real_proj r_fake_proj :
      Nat) : Except String GLosses := do
  let pA_lateral ← iter_f num_slice fake P.netD_A_lateral target_sl_axis
  let loss_G_A_lateral := P.criterionGAN pA_lateral true * P.lambda_plane_target
  let pA_axial ← iter_f num_slice fake P.netD_A_axial source_sl_axis
  let loss_G_A_axial := P.criterionGAN pA_axial true * P.lambda_slice
  let pA_proj ← proj_f P.projection_depth fake P.netD_A_axial_proj
                  remain_sl_axis r_proj_A
  let loss_G_A_axial_proj := P.criterionGAN_mip pA_proj true * P.lambda_proj
  let loss_G_A := loss_G_A_lateral + loss_G_A_axial + loss_G_A_axial_proj
  let pB_lateral ← iter_f num_slice rec' P.netD_B_lateral target_sl_axis
  let loss_G_B_lateral := P.criterionGAN pB_lateral true * P.lambda_plane_target
  let pB_axial ← iter_f num_slice rec' P.netD_B_axial source_sl_axis
  let loss_G_B_axial := P.criterionGAN pB_axial true * P.lambda_slice
  let pB_proj ← proj_f P.projection_depth rec' P.netD_B_axial_proj
                  remain_sl_axis r_proj_B
  let loss_G_B_axial_proj := P.criterionGAN_mip pB_proj true * P.lambda_proj
  let loss_G_B := loss_G_B_lateral + loss_G_B_axial + loss_G_B_axial_proj
  let loss_cycle := Tensor5.l1 rec' real * P.lambda_A
  let real_lateral_proj ← (Volume.ofTensor real).get_projection
                            P.projection_depth 0 r_real_proj
  let fake_lateral_proj ← (Volume.ofTensor fake).get_projection
                            P.projection_depth 0 r_fake_proj
  let loss_lateral_preserve :=
    Tensor4.l1 real_lateral_proj fake_lateral_proj * P.lambda_lateralpreserve
  let loss_G := loss_G_A + loss_G_B + loss_cycle + loss_lateral_preserve
  pure ⟨loss_G_A_lateral, loss_G_A_axial, loss_G_A_axial_proj, loss_G_A,
        loss_G_B_lateral, loss_G_B_axial, loss_G_B_axial_proj, loss_G_B,
        loss_cycle, loss_lateral_preserve, loss_G⟩

/-- The losses one `optimize_parameters` step computes: the generator losses
plus the six discriminator losses. -/
structure StepLosses where
  g : GLosses
  loss_D_A_lateral : ℚ
  loss_D_A_axial : ℚ
  loss_D_A_axial_proj : ℚ
  loss_D_B_lateral : ℚ
  loss_D_B_axial : ℚ
  loss_D_B_axial_proj : ℚ

/-- `optimize_parameters` (lines 347–380): the forward pass, the 50/50 axis
draw (`chance = np.random.uniform(0, 1)`; `chance < 0.5` picks
`source_sl_axis = 1`, otherwise `0`), then the generator backward and the six
discriminator backwards, all receiving the same drawn axis.  Optimizer and
`requires_grad` bookkeeping is value-free and not modelled; the `r` arguments
stand for the `np.random.randint` draws inside the calls. -/
def optimize_parameters (P : ModelParams) (real : Tensor5) (chance : ℚ)
    (rGA rGB rGreal rGfake rDA1 rDA2 rDB1 rDB2 : Nat) :
    Except String StepLosses := do
  let fake := P.netG_A real
  let rec' := P.netG_B fake
  let source_sl_axis := if chance < 1 / 2 then 1 else 0
  let g ← backward_G P (num_slice real) real fake rec' source_sl_axis
            rGA rGB rGreal rGfake
  let loss_D_A_lateral ← backward_D_A_lateral P (num_slice real) real fake
  let loss_D_A_axial ← backward_D_A_axial P (num_slice real) real fake
                         source_sl_axis
  let loss_D_A_axial_proj ← backward_D_A_axial_proj P real fake source_sl_axis
                              rDA1 rDA2
  let loss_D_B_lateral ← backward_D_B_lateral P (num_slice real) real rec'
  let loss_D_B_axial ← backward_D_B_axial P (num_slice real) real rec'
                         source_sl_axis
  let loss_D_B_axial_proj ← backward_D_B_axial_proj P real rec' source_sl_axis
                              rDB1 rDB2
  pure ⟨g, loss_D_A_lateral, loss_D_A_axial, loss_D_A_axial_proj,
        loss_D_B_lateral, loss_D_B_axial, loss_D_B_axial_proj⟩

/-- `optimize_parameters` with the drawn `source_sl_axis` made an explicit
parameter (the body is otherwise that of `optimize_parameters`); used to
state which source axis each loss call of the step receives. -/
def optimize_parameters_src (P : ModelParams) (real : Tensor5)
    (source_sl_axis : Nat) (rGA rGB rGreal rGfake rDA1 rDA2 rDB1 rDB2 : Nat) :
    Except String StepLosses := do
  let fake := P.netG_A real
  let rec' := P.netG_B fake
  let g ← backward_G P (num_slice real) real fake rec' source_sl_axis
            rGA rGB rGreal rGfake
  let loss_D_A_lateral ← backward_D_A_lateral P (num_slice real) real fake
  let loss_D_A_axial ← backward_D_A_axial P (num_slice real) real fake
                         source_sl_axis
  let loss_D_A_axial_proj ← backward_D_A_axial_proj P real fake source_sl_axis
                              rDA1 rDA2
  let loss_D_B_lateral ← backward_D_B_lateral P (num_slice real) real rec'
  let loss_D_B_axial ← backward_D_B_axial P (num_slice real) real rec'
                         source_sl_axis
  let loss_D_B_axial_proj ← backward_D_B_axial_proj P real rec' source_sl_axis
                              rDB1 rDB2
  pure ⟨g, loss_D_A_lateral, loss_D_A_axial, loss_D_A_axial_proj,
        loss_D_B_lateral, loss_D_B_axial, loss_D_B_axial_proj⟩

end AxialToLateralGANArtemisModel

/-- A concrete 4×4×4 test cube (batch 1, channel 1) whose voxel value is its
depth coordinate. -/
def vol4z : Tensor5 := ⟨1, 1, 4, 4, 4, fun _ _ z _ _ => (z : Int)⟩

/-- The axis-0, depth-2 maximum-intensity projection of `vol4z` taken at start
index `s`: constantly `s + 1`. -/
def mip4z (s : Nat) : Tensor4 := ⟨1, 1, 4, 4, fun _ _ _ _ => (s : Int) + 1⟩

/-- A concrete zero 4D slice matching `vol4z`. -/
def slice4zero : Tensor4 := ⟨1, 1, 4, 4, fun _ _ _ _ => 0⟩

/-- A concrete non-cube volume: depth 2 but width 1. -/
def volTall : Tensor5 := ⟨1, 1, 2, 1, 1, fun _ _ _ _ _ => 0⟩

/-- A concrete 8×8×8 cube whose voxel value is its coordinate along axis
`a`'s dimension: `v[..., k, ...] = k` along the projected axis. -/
def cube8 (a : Nat) : Tensor5 :=
  ⟨1, 1, 8, 8, 8, fun _ _ z y x =>
    if a = 0 then (z : Int) else if a = 1 then (y : Int) else (x : Int)⟩

/-- Trivial collaborator instantiation for concrete evaluations: identity
networks, a constantly-zero GAN criterion, projection depth 2, and a unit
lateral-preservation weight. -/
def trivialParams : AxialToLateralGANArtemisModel.ModelParams :=
  { netG_A := id, netG_B := id,
    netD_A_axial := id, netD_A_lateral := id, netD_A_axial_proj := id,
    netD_B_axial := id, netD_B_lateral := id, netD_B_axial_proj := id,
    criterionGAN := fun _ _ => 0, criterionGAN_mip := fun _ _ => 0,
    lambda_A := 0, lambda_lateralpreserve := 1, lambda_plane_target := 0,
    lambda_slice := 0, lambda_proj := 0, mix_planes := false,
    projection_depth := 2 }

/-! Helper lemmas shared by the claim theorems. -/

/-- Success of an `Except` bind splits into successes of the parts. -/
theorem exceptBind_ok {α β : Type} {x : Except String α} {f : α → Except String β}
    {b : β} : (x >>= f) = .ok b ↔ ∃ a, x = .ok a ∧ f a = .ok b := by
  cases x with
  | ok a => simp [Bind.bind, Except.bind]
  | error e => simp [Bind.bind, Except.bind]

/-- Every value of the window is bounded by the window's running maximum. -/
theorem rangeMax_le (f : Nat → Int) (lo : Nat) :
    ∀ len k, lo ≤ k → k < lo + len → f k ≤ rangeMax f lo len := by
  intro len
  induction len with
  | zero => intro k _ h2; exact absurd h2 (by omega)
  | succ n ih =>
    intro k h1 h2
    rcases Nat.lt_or_ge k (lo + n) with h | h
    · exact le_trans (ih k h1 h) (le_max_left _ _)
    · have hk : k = lo + n := by omega
      subst hk
      exact le_max_right _ _

/-- The running maximum of a nonempty window is attained at some index of the
window. -/
theorem rangeMax_attained (f : Nat → Int) (lo : Nat) :
    ∀ len, 0 < len → ∃ k, lo ≤ k ∧ k < lo + len ∧ rangeMax f lo len = f k := by
  intro len
  induction len with
  | zero => intro h; exact absurd h (by omega)
  | succ n ih =>
    intro _
    rcases Nat.eq_zero_or_pos n with h0 | hn
    · subst h0
      refine ⟨lo, Nat.le_refl lo, by omega, ?_⟩
      show max (rangeMax f lo 0) (f (lo + 0)) = f lo
      simp [rangeMax]
    · obtain ⟨k, hk1, hk2, hk3⟩ := ih hn
      rcases le_total (f (lo + n)) (rangeMax f lo n) with hc | hc
      · refine ⟨k, hk1, by omega, ?_⟩
        show max (rangeMax f lo n) (f (lo + n)) = f k
        rw [max_eq_left hc, hk3]
      · refine ⟨lo + n, by omega, by omega, ?_⟩
        show max (rangeMax f lo n) (f (lo + n)) = f (lo + n)
        exact max_eq_right hc

/-- Running maximum of the identity data: the last index of the window. -/
theorem rangeMax_coe (lo : Nat) :
    ∀ len, rangeMax (fun k => (k : Int)) lo (len + 1) = ((lo + len : Nat) : Int) := by
  intro len
  induction len with
  | zero =>
    show max (rangeMax (fun k => (k : Int)) lo 0) ((lo + 0 : Nat) : Int) = _
    simp [rangeMax]
  | succ n ih =>
    show max (rangeMax (fun k => (k : Int)) lo (n + 1)) ((lo + (n + 1) : Nat) : Int) = _
    rw [ih, max_eq_right (by push_cast; omega)]

/-- Evaluation of `get_slice` along axis 0 at an in-range index. -/
theorem get_slice_zero_eval (v : Volume) (i : Nat) (hi : i < v.volume.d) :
    v.get_slice i 0 false 0 =
      .ok (some ⟨v.volume.n, v.volume.c, v.volume.h, v.volume.w,
        fun b ch y x => v.volume.data b ch i y x⟩) := by
  simp [Volume.get_slice, hi, Bind.bind, Except.bind, pure, Except.pure]

/-- Evaluation of `get_slice` along axis 1 at an in-range index. -/
theorem get_slice_one_eval (v : Volume) (i : Nat) (hi : i < v.volume.h) :
    v.get_slice i 1 false 0 =
      .ok (some ⟨v.volume.n, v.volume.c, v.volume.d, v.volume.w,
        fun b ch z x => v.volume.data b ch z i x⟩) := by
  simp [Volume.get_slice, hi, Bind.bind, Except.bind, pure, Except.pure]

/-- Evaluation of `get_slice` along axis 2 at an in-range index. -/
theorem get_slice_two_eval (v : Volume) (i : Nat) (hi : i < v.volume.w) :
    v.get_slice i 2 false 0 =
      .ok (some ⟨v.volume.n, v.volume.c, v.volume.d, v.volume.h,
        fun b ch z y => v.volume.data b ch z y i⟩) := by
  simp [Volume.get_slice, hi, Bind.bind, Except.bind, pure, Except.pure]

/-- `get_slice` at an index beyond the chosen valid axis's extent raises
`IndexError`. -/
theorem get_slice_oob (v : Volume) (i a : Nat) (ha : a < 3)
    (hi : v.volume.axis_extent a ≤ i) :
    ∃ e, v.get_slice i a false 0 = .error e := by
  interval_cases a
  · simp only [Tensor5.axis_extent] at hi
    exact ⟨"IndexError: index out of range for dimension 2",
      by simp [Volume.get_slice, Nat.not_lt.mpr hi, Bind.bind,
        Except.bind, pure, Except.pure]⟩
  · simp only [Tensor5.axis_extent] at hi
    exact ⟨"IndexError: index out of range for dimension 3",
      by simp [Volume.get_slice, Nat.not_lt.mpr hi, Bind.bind,
        Except.bind, pure, Except.pure]⟩
  · simp only [Tensor5.axis_extent] at hi
    exact ⟨"IndexError: index out of range for dimension 4",
      by simp [Volume.get_slice, Nat.not_lt.mpr hi, Bind.bind,
        Except.bind, pure, Except.pure]⟩

/-- Successful axis-0 `set_slice`: with an in-range index and a slot-shaped
slice, the write succeeds and only the data at depth `slice_index` changes. -/
theorem set_slice_zero_eval (v : Volume) (i : Nat) (s : Tensor4)
    (hi : i < v.volume.d) (hn : s.n = v.volume.n) (hc : s.c = v.volume.c)
    (hh : s.h = v.volume.h) (hw : s.w = v.volume.w) :
    v.set_slice i 0 s = .ok
      { v with volume := { v.volume with data := fun b ch z y x =>
          (if z = i then s.data b ch y x else v.volume.data b ch z y x) } } := by
  simp [Volume.set_slice, hi, hn, hc, hh, hw]

namespace AxialToLateralGANArtemisModel

/-- Success characterization of the `iter_f` loop: when every index below
`ns` yields a slice and the discriminator outputs fit the output volume's
slot, the loop succeeds and, after `k ≤ ns` iterations, holds the
discriminator output on slice `z` at depth `z` for `z < k` and the initial
data elsewhere, with all extents unchanged. -/
theorem iter_f_loop_ok (it : Volume) (f : Tensor4 → Tensor4) (a : Nat)
    (out0 : Volume) (ns : Nat) (sl : Nat → Tensor4)
    (hs : ∀ i, i < ns → it.get_slice i a false 0 = .ok (some (sl i)))
    (hd : out0.volume.d = ns)
    (hshape : ∀ i, i < ns → (f (sl i)).n = out0.volume.n ∧
      (f (sl i)).c = out0.volume.c ∧ (f (sl i)).h = out0.volume.h ∧
      (f (sl i)).w = out0.volume.w) :
    ∀ k, k ≤ ns → ∃ cur, iter_f_loop it f a out0 k = .ok cur
      ∧ cur.volume.n = out0.volume.n ∧ cur.volume.c = out0.volume.c
      ∧ cur.volume.d = out0.volume.d ∧ cur.volume.h = out0.volume.h
      ∧ cur.volume.w = out0.volume.w
      ∧ (∀ b c z y x, cur.volume.data b c z y x =
          if z < k then (f (sl z)).data b c y x
          else out0.volume.data b c z y x) := by
  intro k
  induction k with
  | zero =>
    intro _
    exact ⟨out0, rfl, rfl, rfl, rfl, rfl, rfl, fun b c z y x => by simp⟩
  | succ n ih =>
    intro hk
    obtain ⟨cur, hcur, e1, e2, e3, e4, e5, hdata⟩ := ih (by omega)
    have hn : n < ns := by omega
    obtain ⟨s1, s2, s3, s4⟩ := hshape n hn
    have hset : cur.set_slice n 0 (f (sl n)) = .ok
        { cur with volume := { cur.volume with data := fun b ch z y x =>
            (if z = n then (f (sl n)).data b ch y x
             else cur.volume.data b ch z y x) } } :=
      set_slice_zero_eval cur n (f (sl n)) (by omega)
        (s1.trans e1.symm) (s2.trans e2.symm) (s3.trans e4.symm)
        (s4.trans e5.symm)
    refine ⟨{ cur with volume := { cur.volume with data := fun b ch z y x =>
        (if z = n then (f (sl n)).data b ch y x
         else cur.volume.data b ch z y x) } }, ?_, e1, e2, e3, e4, e5, ?_⟩
    · show (iter_f_loop it f a out0 n >>= fun out' =>
          it.get_slice n a false 0 >>= fun sliced =>
            match sliced with
            | some input_slice => out'.set_slice n 0 (f input_slice)
            | none => .error "TypeError: discriminator applied to None") = _
      rw [hcur]
      show (it.get_slice n a false 0 >>= fun sliced =>
          match sliced with
          | some input_slice => cur.set_slice n 0 (f input_slice)
          | none => .error "TypeError: discriminator applied to None") = _
      rw [hs n hn]
      show cur.set_slice n 0 (f (sl n)) = _
      rw [hset]
    · intro b c z y x
      show (if z = n then (f (sl n)).data b c y x
            else cur.volume.data b c z y x) = _
      by_cases hz : z = n
      · subst hz
        rw [if_pos rfl, if_pos (by omega)]
      · rw [if_neg hz, hdata]
        by_cases hlt : z < n
        · rw [if_pos hlt, if_pos (by omega)]
        · rw [if_neg hlt, if_neg (by omega)]

/-- A successful `iter_f` loop run read a slice at every index below its
count. -/
theorem iter_f_loop_slices_ok (it : Volume) (f : Tensor4 → Tensor4) (a : Nat)
    (out : Volume) :
    ∀ k cur, iter_f_loop it f a out k = .ok cur →
      ∀ i, i < k → ∃ t, it.get_slice i a false 0 = .ok (some t) := by
  intro k
  induction k with
  | zero => intro cur _ i hi; exact absurd hi (by omega)
  | succ n ih =>
    intro cur hcur i hi
    obtain ⟨out2, h1, h2⟩ := exceptBind_ok.mp hcur
    obtain ⟨o, h3, h4⟩ := exceptBind_ok.mp h2
    rcases Nat.lt_or_ge i n with hin | hin
    · exact ih out2 h1 i hin
    · have hieq : i = n := by omega
      subst hieq
      cases o with
      | some t => exact ⟨t, h3⟩
      | none => exact absurd h4 (by simp)

end AxialToLateralGANArtemisModel

namespace AxialToLateralGANArtemisModel

/-- C6: with `mix_planes` set, the projection axis used for the
axial-projection heads is 0 when the chosen slicing axis is 1 and 1
otherwise, and with the flag unset it equals the source slicing axis; the
same rule (`complement_axis`) is what `backward_D_A_axial_proj`,
`backward_D_B_axial_proj` and the generator loss `backward_G` all route to
their projection calls. -/
theorem C6_complement_axis_rule (P : ModelParams) (ns : Nat)
    (real fake rec' : Tensor5) (src r1 r2 rA rB r3 r4 : Nat) :
    backward_D_A_axial_proj P real fake src r1 r2 =
      backward_D_projection P.criterionGAN_mip P.projection_depth
        P.netD_A_axial_proj real fake target_sl_axis
        (complement_axis P.mix_planes src) r1 r2
    ∧ backward_D_B_axial_proj P real rec' src r1 r2 =
      backward_D_projection P.criterionGAN_mip P.projection_depth
        P.netD_B_axial_proj real rec' (complement_axis P.mix_planes src)
        (complement_axis P.mix_planes src) r1 r2
    ∧ backward_G P ns real fake rec' src rA rB r3 r4 =
      backward_G_remain P ns real fake rec' src
        (complement_axis P.mix_planes src) rA rB r3 r4
    ∧ complement_axis false src = src
    ∧ complement_axis true 1 = 0
    ∧ complement_axis true 0 = 1
    ∧ complement_axis true 2 = 1 :=
  ⟨rfl, rfl, rfl, rfl, rfl, rfl, rfl⟩

/-- C3: `optimize_parameters` draws one uniform `chance` in `[0,1)`; when
`chance < 0.5` the source axis of the whole step is 1, otherwise (including
exactly 0.5) it is 0, and that single axis is the one handed to the generator
backward and to every axial discriminator backward
(`optimize_parameters_src` feeds its axis parameter to exactly those
calls). -/
theorem C3_axis_selection (P : ModelParams) (real : Tensor5) (chance : ℚ)
    (rGA rGB rGreal rGfake rDA1 rDA2 rDB1 rDB2 : Nat) :
    (chance < 1 / 2 →
      optimize_parameters P real chance rGA rGB rGreal rGfake rDA1 rDA2 rDB1 rDB2 =
        optimize_parameters_src P real 1 rGA rGB rGreal rGfake rDA1 rDA2 rDB1 rDB2)
    ∧ (1 / 2 ≤ chance →
      optimize_parameters P real chance rGA rGB rGreal rGfake rDA1 rDA2 rDB1 rDB2 =
        optimize_parameters_src P real 0 rGA rGB rGreal rGfake rDA1 rDA2 rDB1 rDB2) := by
  constructor
  · intro h
    simp only [optimize_parameters, optimize_parameters_src, if_pos h]
  · intro h
    simp only [optimize_parameters, optimize_parameters_src,
      if_neg (not_lt.mpr h)]

/-- C3 at the boundary inputs of the spec: a draw of 0.49999 routes source
axis 1 through the step, a draw of exactly 0.5 routes source axis 0. -/
theorem C3_axis_selection_witness :
    optimize_parameters trivialParams vol4z (49999 / 100000) 0 0 0 1 0 0 0 0 =
      optimize_parameters_src trivialParams vol4z 1 0 0 0 1 0 0 0 0
    ∧ optimize_parameters trivialParams vol4z (1 / 2) 0 0 0 1 0 0 0 0 =
      optimize_parameters_src trivialParams vol4z 0 0 0 0 1 0 0 0 0 :=
  ⟨(C3_axis_selection trivialParams vol4z (49999 / 100000) 0 0 0 1 0 0 0 0).1
      (by norm_num),
   (C3_axis_selection trivialParams vol4z (1 / 2) 0 0 0 1 0 0 0 0).2 (by norm_num)⟩

/-- C4: the claim says the stochastically chosen source axis is always one of
axes 1 and 2 and axis 0 never serves as source; the code contradicts it (and
its own docstring, which announces a 50/50 choice between the YZ and XZ
planes): at `chance = 0.5` the step runs with `source_sl_axis = 0`, which is
`target_sl_axis`, the XY target axis, and axis 2 is never drawn. -/
theorem C4_source_axis_is_target (P : ModelParams) (real : Tensor5) (chance : ℚ)
    (rGA rGB rGreal rGfake rDA1 rDA2 rDB1 rDB2 : Nat) :
    (1 / 2 ≤ chance →
      optimize_parameters P real chance rGA rGB rGreal rGfake rDA1 rDA2 rDB1 rDB2 =
        optimize_parameters_src P real target_sl_axis rGA rGB rGreal rGfake
          rDA1 rDA2 rDB1 rDB2)
    ∧ target_sl_axis = 0 := by
  constructor
  · intro h
    simp only [optimize_parameters, optimize_parameters_src, target_sl_axis,
      if_neg (not_lt.mpr h)]
  · rfl

/-- C4 at the failing input `chance = 0.5`: the step's source axis is the
target axis 0. -/
theorem C4_source_axis_is_target_witness :
    optimize_parameters trivialParams vol4z (1 / 2) 0 0 0 1 0 0 0 0 =
      optimize_parameters_src trivialParams vol4z target_sl_axis 0 0 0 1 0 0 0 0
    ∧ target_sl_axis = 0 :=
  ⟨(C4_source_axis_is_target trivialParams vol4z (1 / 2) 0 0 0 1 0 0 0 0).1
      (by norm_num),
   (C4_source_axis_is_target trivialParams vol4z (1 / 2) 0 0 0 1 0 0 0 0).2⟩

end AxialToLateralGANArtemisModel

namespace AxialToLateralGANArtemisModel

/-- C5: in both discriminator-loss variants the loss equals
`0.5 * (ganloss(pred_real, True) + ganloss(pred_fake, False))`, where
`pred_real` is the applicator on the real volume along the real axis and
`pred_fake` is the applicator on the detached fake volume along the fake
axis (`backward_D_basic` through `iter_f`, `backward_D_projection` through
`proj_f`). -/
theorem C5_discriminator_loss (crit : Tensor5 → Bool → ℚ)
    (critm : Tensor4 → Bool → ℚ) (ns pd : Nat) (netD : Tensor4 → Tensor4)
    (real fake : Tensor5) (axR axF rR rF : Nat) (pr pf : Tensor5)
    (mr mf : Tensor4)
    (h1 : iter_f ns real netD axR = .ok pr)
    (h2 : iter_f ns (Tensor5.detach fake) netD axF = .ok pf)
    (h3 : proj_f pd real netD axR rR = .ok mr)
    (h4 : proj_f pd (Tensor5.detach fake) netD axF rF = .ok mf) :
    backward_D_basic crit ns netD real fake axR axF =
      .ok ((1 / 2) * (crit pr true + crit pf false))
    ∧ backward_D_projection critm pd netD real fake axR axF rR rF =
      .ok ((1 / 2) * (critm mr true + critm mf false)) := by
  constructor
  · simp only [backward_D_basic, h1, h2, Bind.bind, Except.bind, pure,
      Except.pure]
    rw [mul_comm]
  · simp only [backward_D_projection, h3, h4, Bind.bind, Except.bind, pure,
      Except.pure]
    rw [mul_comm]

/-- C5 at a concrete input: with a constantly-3 criterion both discriminator
losses evaluate to `0.5 * (3 + 3) = 3`. -/
theorem C5_discriminator_loss_witness :
    backward_D_basic (fun _ _ => (3 : ℚ)) 4 id vol4z vol4z 0 0 = .ok 3
    ∧ backward_D_projection (fun _ _ => (3 : ℚ)) 2 id vol4z vol4z 0 0 0 0 =
      .ok 3 := by
  have h := C5_discriminator_loss (fun _ _ => (3 : ℚ)) (fun _ _ => (3 : ℚ))
    4 2 id vol4z vol4z 0 0 0 0 _ _ _ _ rfl rfl rfl rfl
  refine ⟨h.1.trans ?_, h.2.trans ?_⟩ <;> norm_num

end AxialToLateralGANArtemisModel

/-- C9 as the code actually behaves on an axis outside {0,1,2}: `get_slice`
returns Python `None` without raising (the failure surfaces only once the
caller uses the result), `set_slice` silently does nothing (it completes
without raising, leaving the volume unchanged), and only `get_projection`
raises synchronously from the call itself. -/
theorem C9_invalid_axis (v : Volume) (i a d r : Nat) (s : Tensor4)
    (ha : 3 ≤ a) :
    v.get_slice i a false r = .ok none
    ∧ v.set_slice i a s = .ok v
    ∧ ∃ e, v.get_projection d a r = .error e := by
  have h0 : ¬(a = 0) := by omega
  have h1 : ¬(a = 1) := by omega
  have h2 : ¬(a = 2) := by omega
  refine ⟨?_, ?_, ?_⟩
  · simp [Volume.get_slice, h0, h1, h2, Bind.bind, Except.bind, pure,
      Except.pure]
  · simp [Volume.set_slice, h0, h1, h2]
  · by_cases hd : 0 < v.num_slice - d
    · refine ⟨"UnboundLocalError: volume_ROI referenced before assignment", ?_⟩
      simp [Volume.get_projection, randint, hd, Volume.get_projection_roi,
        h0, h1, h2, Bind.bind, Except.bind]
    · refine ⟨"ValueError: low >= high", ?_⟩
      simp [Volume.get_projection, randint, hd, Bind.bind, Except.bind]

/-- C9 at a concrete input: axis 5 on a concrete volume — `get_slice`
completes with `None`, `set_slice` leaves the volume untouched, and
`get_projection` raises. -/
theorem C9_invalid_axis_witness :
    (Volume.ofTensor vol4z).get_slice 1 5 false 0 = .ok none
    ∧ (Volume.ofTensor vol4z).set_slice 1 5 slice4zero =
        .ok (Volume.ofTensor vol4z)
    ∧ ∃ e, (Volume.ofTensor vol4z).get_projection 2 5 0 = .error e :=
  C9_invalid_axis (Volume.ofTensor vol4z) 1 5 2 0 slice4zero (by norm_num)

/-- C9 counterexample to the claim as stated: at axis selector 3 — outside
{0,1,2} — `get_slice` does not fail at all (it returns `None` successfully)
and `set_slice` completes as a silent no-op, so the error is neither fatal
nor surfaced synchronously from these calls. -/
theorem C9_counterexample :
    (Volume.ofTensor vol4z).get_slice 0 3 false 0 = .ok none
    ∧ (Volume.ofTensor vol4z).set_slice 0 3 slice4zero =
        .ok (Volume.ofTensor vol4z) :=
  ⟨rfl, rfl⟩

/-- C10: a `Volume` wrapping any 5D tensor sets `num_slice` to the extent of
the last (width) dimension; the random index of `get_slice` with
`pick_random` and the random start of `get_projection` are both drawn with
that width-derived bound, whatever axis is passed; and the bound coincides
with every valid axis's extent exactly when the volume is a cube
(D = H = W). -/
theorem C10_num_slice_is_width (vol : Tensor5) (i a r depth : Nat)
    (hw : 0 < vol.w) (hd : depth < vol.w) :
    (Volume.ofTensor vol).num_slice = vol.w
    ∧ (Volume.ofTensor vol).get_slice i a true r =
        (Volume.ofTensor vol).get_slice (r % vol.w) a false 0
    ∧ r % vol.w < vol.w
    ∧ (Volume.ofTensor vol).get_projection depth a r =
        (Volume.ofTensor vol).get_projection_roi depth a (r % (vol.w - depth))
    ∧ r % (vol.w - depth) < vol.w - depth
    ∧ ((∀ a', a' < 3 → vol.axis_extent a' = (Volume.ofTensor vol).num_slice) ↔
        (vol.d = vol.w ∧ vol.h = vol.w)) := by
  refine ⟨rfl, ?_, Nat.mod_lt _ hw, ?_, Nat.mod_lt _ (by omega), ?_, ?_⟩
  · simp [Volume.get_slice, randint, hw, Volume.ofTensor, Bind.bind,
      Except.bind, pure, Except.pure]
  · simp [Volume.get_projection, randint, Nat.sub_pos_of_lt hd,
      Volume.ofTensor, Bind.bind, Except.bind]
  · intro h
    exact ⟨h 0 (by norm_num), h 1 (by norm_num)⟩
  · rintro ⟨h1, h2⟩ a' ha'
    interval_cases a' <;> simp [Tensor5.axis_extent, Volume.ofTensor, h1, h2]

/-- C10 at a concrete input: a 4×4×4 cube, axis 1, raw draw 7, depth 2. -/
theorem C10_num_slice_is_width_witness :
    (Volume.ofTensor vol4z).num_slice = vol4z.w
    ∧ (Volume.ofTensor vol4z).get_slice 0 1 true 7 =
        (Volume.ofTensor vol4z).get_slice (7 % vol4z.w) 1 false 0
    ∧ 7 % vol4z.w < vol4z.w
    ∧ (Volume.ofTensor vol4z).get_projection 2 1 7 =
        (Volume.ofTensor vol4z).get_projection_roi 2 1 (7 % (vol4z.w - 2))
    ∧ 7 % (vol4z.w - 2) < vol4z.w - 2
    ∧ ((∀ a', a' < 3 → vol4z.axis_extent a' = (Volume.ofTensor vol4z).num_slice) ↔
        (vol4z.d = vol4z.w ∧ vol4z.h = vol4z.w)) :=
  C10_num_slice_is_width vol4z 0 1 7 2 (by decide) (by decide)

namespace AxialToLateralGANArtemisModel

/-- Full characterization of a successful `iter_f` run, given the family of
slices the chosen axis yields (index 0 for the probing read, every index
below `ns` for the loop) and discriminator outputs that keep the first
slice's output shape: the result is `.ok`, shaped from the first slice's
discriminator output with depth extent `ns`, holds the discriminator output
on slice `i` at index `i` along axis 0 for every `i < ns`, and keeps the
allocation's zeros beyond. -/
theorem iter_f_ok_of_slices (ns : Nat) (input : Tensor5)
    (f : Tensor4 → Tensor4) (a : Nat) (sl : Nat → Tensor4)
    (hs0 : (Volume.ofTensor input).get_slice 0 a false 0 = .ok (some (sl 0)))
    (hs : ∀ i, i < ns →
      (Volume.ofTensor input).get_slice i a false 0 = .ok (some (sl i)))
    (hf : ∀ i, i < ns → (f (sl i)).n = (f (sl 0)).n ∧
      (f (sl i)).c = (f (sl 0)).c ∧ (f (sl i)).h = (f (sl 0)).h ∧
      (f (sl i)).w = (f (sl 0)).w) :
    ∃ out, iter_f ns input f a = .ok out
      ∧ out.n = (f (sl 0)).n ∧ out.c = (f (sl 0)).c ∧ out.d = ns
      ∧ out.h = (f (sl 0)).h ∧ out.w = (f (sl 0)).w
      ∧ (∀ i b c y x, i < ns → out.data b c i y x = (f (sl i)).data b c y x)
      ∧ (∀ z b c y x, ns ≤ z → out.data b c z y x = 0) := by
  obtain ⟨cur, hloop, e1, e2, e3, e4, e5, hdata⟩ :=
    iter_f_loop_ok (Volume.ofTensor input) f a
      (Volume.ofTensor ⟨(f (sl 0)).n, (f (sl 0)).c, ns, (f (sl 0)).h,
        (f (sl 0)).w, fun _ _ _ _ _ => 0⟩) ns sl hs rfl
      (fun i hi => hf i hi) ns (le_refl ns)
  have h1 : iter_f ns input f a =
      ((Volume.ofTensor input).get_slice 0 a false 0 >>= fun first =>
        match first with
        | some s =>
          iter_f_loop (Volume.ofTensor input) f a
            (Volume.ofTensor ⟨(f s).n, (f s).c, ns, (f s).h, (f s).w,
              fun _ _ _ _ _ => 0⟩) ns >>= fun result => pure result.get_volume
        | none => .error "TypeError: discriminator applied to None") := rfl
  refine ⟨cur.get_volume, ?_, e1, e2, e3, e4, e5, ?_, ?_⟩
  · rw [h1, hs0]
    show (iter_f_loop (Volume.ofTensor input) f a
        (Volume.ofTensor ⟨(f (sl 0)).n, (f (sl 0)).c, ns, (f (sl 0)).h,
          (f (sl 0)).w, fun _ _ _ _ _ => 0⟩) ns >>= fun result =>
        pure result.get_volume) = _
    rw [hloop]
    rfl
  · intro i b c y x hi
    rw [Volume.get_volume, hdata b c i y x, if_pos hi]
  · intro z b c y x hz
    rw [Volume.get_volume, hdata b c z y x, if_neg (by omega)]
    rfl

/-- C2 amended: when the chosen axis's extent is positive and at least
`num_slice` — `num_slice` being the model attribute set in `set_input` from
`shape[-3]` of the real cube, not the extent of the chosen axis — and the
discriminator has a fixed output shape (the discriminator contract), `iter_f`
applies the discriminator to exactly the indices `0 … num_slice-1` along the
chosen axis, writes result `i` at index `i` along axis 0 of a zero tensor
freshly shaped from the first slice's output, and returns a 5D volume whose
depth extent equals `num_slice` for every valid axis, threading no random
draw (every internal `get_slice` passes `pick_random = False`); when the
chosen axis's extent is smaller than `num_slice`, `iter_f` instead raises. -/
theorem C2_iter_f_depth_amended (real input : Tensor5) (f : Tensor4 → Tensor4)
    (a : Nat) (ha : a < 3)
    (hfix : ∀ t u : Tensor4, (f t).n = (f u).n ∧ (f t).c = (f u).c ∧
      (f t).h = (f u).h ∧ (f t).w = (f u).w) :
    (input.axis_extent a < num_slice real →
      ∃ e, iter_f (num_slice real) input f a = .error e)
    ∧ (0 < input.axis_extent a → num_slice real ≤ input.axis_extent a →
        ∃ out, iter_f (num_slice real) input f a = .ok out
          ∧ num_slice real = real.d
          ∧ out.d = num_slice real
          ∧ (∀ sl0, (Volume.ofTensor input).get_slice 0 a false 0 =
                .ok (some sl0) →
              out.n = (f sl0).n ∧ out.c = (f sl0).c ∧ out.h = (f sl0).h ∧
              out.w = (f sl0).w)
          ∧ (∀ i, i < num_slice real → ∀ sl,
              (Volume.ofTensor input).get_slice i a false 0 = .ok (some sl) →
              ∀ b c y x, out.data b c i y x = (f sl).data b c y x)
          ∧ (∀ z, num_slice real ≤ z → ∀ b c y x, out.data b c z y x = 0)) := by
  constructor
  · intro hlt
    cases hres : iter_f (num_slice real) input f a with
    | error e => exact ⟨e, rfl⟩
    | ok out =>
      exfalso
      have hres2 : ((Volume.ofTensor input).get_slice 0 a false 0 >>=
          fun first =>
          match first with
          | some s =>
            iter_f_loop (Volume.ofTensor input) f a
              (Volume.ofTensor ⟨(f s).n, (f s).c, num_slice real, (f s).h,
                (f s).w, fun _ _ _ _ _ => 0⟩) (num_slice real) >>=
              fun result => pure result.get_volume
          | none => .error "TypeError: discriminator applied to None") =
          .ok out := hres
      obtain ⟨o0, g1, g2⟩ := exceptBind_ok.mp hres2
      cases o0 with
      | none => simp at g2
      | some s0 =>
        have g2b : (iter_f_loop (Volume.ofTensor input) f a
            (Volume.ofTensor ⟨(f s0).n, (f s0).c, num_slice real, (f s0).h,
              (f s0).w, fun _ _ _ _ _ => 0⟩) (num_slice real) >>=
            fun result => pure result.get_volume) = .ok out := g2
        obtain ⟨cur, g3, _⟩ := exceptBind_ok.mp g2b
        obtain ⟨t, g5⟩ := iter_f_loop_slices_ok (Volume.ofTensor input) f a _
          (num_slice real) cur g3 (input.axis_extent a) hlt
        obtain ⟨e, he⟩ := get_slice_oob (Volume.ofTensor input)
          (input.axis_extent a) a ha (le_refl _)
        rw [g5] at he
        simp at he
  · intro hpos hext
    interval_cases a
    · simp only [Tensor5.axis_extent] at hpos hext
      obtain ⟨out, hok, hn, hc, hd, hh, hw, hdat, hzero⟩ :=
        iter_f_ok_of_slices (num_slice real) input f 0
          (fun i => ⟨input.n, input.c, input.h, input.w,
            fun b ch y x => input.data b ch i y x⟩)
          (get_slice_zero_eval (Volume.ofTensor input) 0
            (by show 0 < input.d; omega))
          (fun i hi => get_slice_zero_eval (Volume.ofTensor input) i
            (by show i < input.d; omega))
          (fun i hi => hfix _ _)
      refine ⟨out, hok, rfl, hd, ?_, ?_,
        fun z hz b c y x => hzero z b c y x hz⟩
      · intro sl0 hsl0
        have hread := get_slice_zero_eval (Volume.ofTensor input) 0
          (by show 0 < input.d; omega)
        have he := hread.symm.trans hsl0
        simp only [Except.ok.injEq, Option.some.injEq] at he
        rw [← he]
        exact ⟨hn, hc, hh, hw⟩
      · intro i hi sl hsl b c y x
        have hread := get_slice_zero_eval (Volume.ofTensor input) i
          (by show i < input.d; omega)
        have he := hread.symm.trans hsl
        simp only [Except.ok.injEq, Option.some.injEq] at he
        rw [← he]
        exact hdat i b c y x hi
    · simp only [Tensor5.axis_extent] at hpos hext
      obtain ⟨out, hok, hn, hc, hd, hh, hw, hdat, hzero⟩ :=
        iter_f_ok_of_slices (num_slice real) input f 1
          (fun i => ⟨input.n, input.c, input.d, input.w,
            fun b ch z x => input.data b ch z i x⟩)
          (get_slice_one_eval (Volume.ofTensor input) 0
            (by show 0 < input.h; omega))
          (fun i hi => get_slice_one_eval (Volume.ofTensor input) i
            (by show i < input.h; omega))
          (fun i hi => hfix _ _)
      refine ⟨out, hok, rfl, hd, ?_, ?_,
        fun z hz b c y x => hzero z b c y x hz⟩
      · intro sl0 hsl0
        have hread := get_slice_one_eval (Volume.ofTensor input) 0
          (by show 0 < input.h; omega)
        have he := hread.symm.trans hsl0
        simp only [Except.ok.injEq, Option.some.injEq] at he
        rw [← he]
        exact ⟨hn, hc, hh, hw⟩
      · intro i hi sl hsl b c y x
        have hread := get_slice_one_eval (Volume.ofTensor input) i
          (by show i < input.h; omega)
        have he := hread.symm.trans hsl
        simp only [Except.ok.injEq, Option.some.injEq] at he
        rw [← he]
        exact hdat i b c y x hi
    · simp only [Tensor5.axis_extent] at hpos hext
      obtain ⟨out, hok, hn, hc, hd, hh, hw, hdat, hzero⟩ :=
        iter_f_ok_of_slices (num_slice real) input f 2
          (fun i => ⟨input.n, input.c, input.d, input.h,
            fun b ch z y => input.data b ch z y i⟩)
          (get_slice_two_eval (Volume.ofTensor input) 0
            (by show 0 < input.w; omega))
          (fun i hi => get_slice_two_eval (Volume.ofTensor input) i
            (by show i < input.w; omega))
          (fun i hi => hfix _ _)
      refine ⟨out, hok, rfl, hd, ?_, ?_,
        fun z hz b c y x => hzero z b c y x hz⟩
      · intro sl0 hsl0
        have hread := get_slice_two_eval (Volume.ofTensor input) 0
          (by show 0 < input.w; omega)
        have he := hread.symm.trans hsl0
        simp only [Except.ok.injEq, Option.some.injEq] at he
        rw [← he]
        exact ⟨hn, hc, hh, hw⟩
      · intro i hi sl hsl b c y x
        have hread := get_slice_two_eval (Volume.ofTensor input) i
          (by show i < input.w; omega)
        have he := hread.symm.trans hsl
        simp only [Except.ok.injEq, Option.some.injEq] at he
        rw [← he]
        exact hdat i b c y x hi

/-- C2 counterexample to the claim as stated: on the non-cube input of shape
(1,1,2,1,1) with `num_slice = 2` (its `shape[-3]`) and slicing axis 1 (extent
1), `iter_f` does not return a volume at all — iteration `i = 1` indexes past
the height dimension and PyTorch raises `IndexError`, as the code does for
every input whose chosen-axis extent is smaller than `num_slice`. -/
theorem C2_iter_f_counterexample :
    num_slice volTall = 2
    ∧ volTall.axis_extent 1 = 1
    ∧ iter_f (num_slice volTall) volTall id 1 =
        .error "IndexError: index out of range for dimension 3" :=
  ⟨rfl, rfl, rfl⟩

/-- C2 amended at a concrete input: a 4×4×4 cube sliced along axis 1 with a
constant-output discriminator yields a stack whose depth extent is
`num_slice vol4z = 4`. -/
theorem C2_iter_f_depth_amended_witness :
    (vol4z.axis_extent 1 < num_slice vol4z →
      ∃ e, iter_f (num_slice vol4z) vol4z (fun _ => slice4zero) 1 = .error e)
    ∧ (0 < vol4z.axis_extent 1 → num_slice vol4z ≤ vol4z.axis_extent 1 →
        ∃ out, iter_f (num_slice vol4z) vol4z (fun _ => slice4zero) 1 = .ok out
          ∧ num_slice vol4z = vol4z.d
          ∧ out.d = num_slice vol4z
          ∧ (∀ sl0, (Volume.ofTensor vol4z).get_slice 0 1 false 0 =
                .ok (some sl0) →
              out.n = ((fun _ => slice4zero) sl0).n ∧
              out.c = ((fun _ => slice4zero) sl0).c ∧
              out.h = ((fun _ => slice4zero) sl0).h ∧
              out.w = ((fun _ => slice4zero) sl0).w)
          ∧ (∀ i, i < num_slice vol4z → ∀ sl,
              (Volume.ofTensor vol4z).get_slice i 1 false 0 = .ok (some sl) →
              ∀ b c y x, out.data b c i y x =
                ((fun _ => slice4zero) sl).data b c y x)
          ∧ (∀ z, num_slice vol4z ≤ z → ∀ b c y x, out.data b c z y x = 0)) :=
  C2_iter_f_depth_amended vol4z vol4z (fun _ => slice4zero) 1 (by norm_num)
    (fun t u => ⟨rfl, rfl, rfl, rfl⟩)

end AxialToLateralGANArtemisModel

/-- Evaluation of `get_projection_roi` along axis 0 when the clipped window
is nonempty. -/
theorem get_projection_roi_zero (v : Volume) (depth s : Nat)
    (h : min s v.volume.d < min (s + depth) v.volume.d) :
    v.get_projection_roi depth 0 s =
      .ok ⟨v.volume.n, v.volume.c, v.volume.h, v.volume.w,
        fun b ch y x => rangeMax (fun z => v.volume.data b ch z y x)
          (min s v.volume.d)
          (min (s + depth) v.volume.d - min s v.volume.d)⟩ := by
  simp [Volume.get_projection_roi, if_pos h]
  omega

/-- Evaluation of `get_projection_roi` along axis 1 when the clipped window
is nonempty. -/
theorem get_projection_roi_one (v : Volume) (depth s : Nat)
    (h : min s v.volume.h < min (s + depth) v.volume.h) :
    v.get_projection_roi depth 1 s =
      .ok ⟨v.volume.n, v.volume.c, v.volume.d, v.volume.w,
        fun b ch z x => rangeMax (fun y => v.volume.data b ch z y x)
          (min s v.volume.h)
          (min (s + depth) v.volume.h - min s v.volume.h)⟩ := by
  simp [Volume.get_projection_roi, if_pos h]
  omega

/-- Evaluation of `get_projection_roi` along axis 2 when the clipped window
is nonempty. -/
theorem get_projection_roi_two (v : Volume) (depth s : Nat)
    (h : min s v.volume.w < min (s + depth) v.volume.w) :
    v.get_projection_roi depth 2 s =
      .ok ⟨v.volume.n, v.volume.c, v.volume.d, v.volume.h,
        fun b ch z y => rangeMax (fun x => v.volume.data b ch z y x)
          (min s v.volume.w)
          (min (s + depth) v.volume.w - min s v.volume.w)⟩ := by
  simp [Volume.get_projection_roi, if_pos h]
  omega

/-- Running maximum of the identity data over any nonempty window: the last
index of the window. -/
theorem rangeMax_coe_of_pos (lo len : Nat) (h : 0 < len) :
    rangeMax (fun k => (k : Int)) lo len = ((lo + (len - 1) : Nat) : Int) := by
  cases len with
  | zero => exact absurd h (by omega)
  | succ n => rw [rangeMax_coe]; simp

/-- C8: with `projection_depth = 4` and `num_slice = 8` on a cube whose value
along the projected axis is the coordinate itself, `get_projection` samples a
start in `[0,4)` and returns the MIP constantly equal to `start + 3` at every
position, for each of the three axes; the result is a function of the seeded
draw only (same residue, same output). -/
theorem C8_projection_scenario (a r : Nat) (ha : a < 3) :
    r % 4 < 4
    ∧ (∃ m, (Volume.ofTensor (cube8 a)).get_projection 4 a r = .ok m
        ∧ ∀ b c p q, m.data b c p q = ((r % 4 : Nat) : Int) + 3)
    ∧ (∀ r', r' % 4 = r % 4 →
        (Volume.ofTensor (cube8 a)).get_projection 4 a r' =
          (Volume.ofTensor (cube8 a)).get_projection 4 a r) := by
  have hmod : r % 4 < 4 := Nat.mod_lt _ (by norm_num)
  have h1 : ∀ rr : Nat, (Volume.ofTensor (cube8 a)).get_projection 4 a rr =
      (Volume.ofTensor (cube8 a)).get_projection_roi 4 a (rr % 4) := by
    intro rr
    simp [Volume.get_projection, Volume.ofTensor, cube8, randint,
      Bind.bind, Except.bind]
  refine ⟨hmod, ?_, fun r' hr => by rw [h1 r', h1 r, hr]⟩
  rw [h1 r]
  have hsub : r % 4 + 4 - r % 4 = 4 := by omega
  interval_cases a
  · have e1 : min (r % 4) (Volume.ofTensor (cube8 0)).volume.d = r % 4 := by
      show r % 4 ⊓ 8 = r % 4
      omega
    have e2 : min (r % 4 + 4) (Volume.ofTensor (cube8 0)).volume.d =
        r % 4 + 4 := by
      show (r % 4 + 4) ⊓ 8 = r % 4 + 4
      omega
    rw [get_projection_roi_zero _ 4 (r % 4) (by rw [e1, e2]; omega), e1, e2,
      hsub]
    refine ⟨_, rfl, fun b c p q => ?_⟩
    show rangeMax (fun z => (cube8 0).data b c z p q) (r % 4) 4 =
      ((r % 4 : Nat) : Int) + 3
    have hdat : (fun z => (cube8 0).data b c z p q) =
        fun k : Nat => (k : Int) := funext fun k => by simp [cube8]
    rw [hdat, rangeMax_coe_of_pos _ _ (by norm_num)]
    push_cast
    omega
  · have e1 : min (r % 4) (Volume.ofTensor (cube8 1)).volume.h = r % 4 := by
      show r % 4 ⊓ 8 = r % 4
      omega
    have e2 : min (r % 4 + 4) (Volume.ofTensor (cube8 1)).volume.h =
        r % 4 + 4 := by
      show (r % 4 + 4) ⊓ 8 = r % 4 + 4
      omega
    rw [get_projection_roi_one _ 4 (r % 4) (by rw [e1, e2]; omega), e1, e2,
      hsub]
    refine ⟨_, rfl, fun b c p q => ?_⟩
    show rangeMax (fun y => (cube8 1).data b c p y q) (r % 4) 4 =
      ((r % 4 : Nat) : Int) + 3
    have hdat : (fun y => (cube8 1).data b c p y q) =
        fun k : Nat => (k : Int) := funext fun k => by simp [cube8]
    rw [hdat, rangeMax_coe_of_pos _ _ (by norm_num)]
    push_cast
    omega
  · have e1 : min (r % 4) (Volume.ofTensor (cube8 2)).volume.w = r % 4 := by
      show r % 4 ⊓ 8 = r % 4
      omega
    have e2 : min (r % 4 + 4) (Volume.ofTensor (cube8 2)).volume.w =
        r % 4 + 4 := by
      show (r % 4 + 4) ⊓ 8 = r % 4 + 4
      omega
    rw [get_projection_roi_two _ 4 (r % 4) (by rw [e1, e2]; omega), e1, e2,
      hsub]
    refine ⟨_, rfl, fun b c p q => ?_⟩
    show rangeMax (fun x => (cube8 2).data b c p q x) (r % 4) 4 =
      ((r % 4 : Nat) : Int) + 3
    have hdat : (fun x => (cube8 2).data b c p q x) =
        fun k : Nat => (k : Int) := funext fun k => by simp [cube8]
    rw [hdat, rangeMax_coe_of_pos _ _ (by norm_num)]
    push_cast
    omega

/-- C8 at a concrete input: axis 1, raw draw 13 (start `13 % 4 = 1`), so the
MIP is constantly `1 + 3 = 4`. -/
theorem C8_projection_scenario_witness :
    13 % 4 < 4
    ∧ (∃ m, (Volume.ofTensor (cube8 1)).get_projection 4 1 13 = .ok m
        ∧ ∀ b c p q, m.data b c p q = ((13 % 4 : Nat) : Int) + 3)
    ∧ (∀ r', r' % 4 = 13 % 4 →
        (Volume.ofTensor (cube8 1)).get_projection 4 1 r' =
          (Volume.ofTensor (cube8 1)).get_projection 4 1 13) :=
  C8_projection_scenario 1 13 (by norm_num)

/-- C1 counterexample: on a volume with depth 2 but width 1, axis 0 and
projection depth 1, the claim says the start index is drawn from
`[0, num_slice_along_axis - 1) = [0, 1)` and the call is defined (1 < 2);
the code instead draws `np.random.randint(0, shape[-1] - depth)` =
`randint(0, 0)` and raises `ValueError`. -/
theorem C1_get_projection_counterexample :
    1 < volTall.d
    ∧ (Volume.ofTensor volTall).get_projection 1 0 0 =
        .error "ValueError: low >= high" :=
  ⟨by decide, rfl⟩

/-- C1 amended: `get_projection(d, a)` draws its start uniformly from
`[0, ns - d)` where `ns` is the extent of the LAST (width) dimension —
not of the dimension `a` selects — raising whenever `d >= ns`; on success
with a start inside axis `a`'s extent and `0 < d` it returns a 4D tensor
whose every entry is the element-wise maximum of the window
`[start, start+d)` clipped to that extent, taken along dimension `a + 2`. -/
theorem C1_get_projection_amended (vol : Tensor5) (d a r : Nat) (ha : a < 3) :
    (vol.w ≤ d →
      (Volume.ofTensor vol).get_projection d a r =
        .error "ValueError: low >= high")
    ∧ (d < vol.w →
        r % (vol.w - d) < vol.w - d
        ∧ (∀ s, s < vol.w - d → s % (vol.w - d) = s)
        ∧ (0 < d → r % (vol.w - d) < vol.axis_extent a →
            ∃ m, (Volume.ofTensor vol).get_projection d a r = .ok m
              ∧ m.n = vol.n ∧ m.c = vol.c
              ∧ (∀ b c p q k, r % (vol.w - d) ≤ k →
                  k < min (r % (vol.w - d) + d) (vol.axis_extent a) →
                  vol.at_axis a b c p q k ≤ m.data b c p q)
              ∧ (∀ b c p q, ∃ k, r % (vol.w - d) ≤ k ∧
                  k < min (r % (vol.w - d) + d) (vol.axis_extent a) ∧
                  m.data b c p q = vol.at_axis a b c p q k))) := by
  constructor
  · intro hle
    simp [Volume.get_projection, randint, Nat.sub_eq_zero_of_le hle,
      Volume.ofTensor, Bind.bind, Except.bind]
  · intro hd
    have hproj : (Volume.ofTensor vol).get_projection d a r =
        (Volume.ofTensor vol).get_projection_roi d a (r % (vol.w - d)) := by
      simp [Volume.get_projection, randint, Nat.sub_pos_of_lt hd,
        Volume.ofTensor, Bind.bind, Except.bind]
    refine ⟨Nat.mod_lt _ (by omega), fun s hs => Nat.mod_eq_of_lt hs, ?_⟩
    intro hdp hse
    interval_cases a
    · simp only [Tensor5.axis_extent] at hse ⊢
      have hcond : min (r % (vol.w - d)) vol.d <
          min (r % (vol.w - d) + d) vol.d := by omega
      rw [hproj, get_projection_roi_zero _ d (r % (vol.w - d)) hcond]
      refine ⟨_, rfl, rfl, rfl, ?_, ?_⟩
      · intro b c p q k hk1 hk2
        have hb := rangeMax_le (fun z => vol.data b c z p q)
          (min (r % (vol.w - d)) vol.d)
          (min (r % (vol.w - d) + d) vol.d - min (r % (vol.w - d)) vol.d)
          k (by omega) (by omega)
        simpa [Tensor5.at_axis] using hb
      · intro b c p q
        obtain ⟨k, hk1, hk2, hk3⟩ := rangeMax_attained
          (fun z => vol.data b c z p q) (min (r % (vol.w - d)) vol.d)
          (min (r % (vol.w - d) + d) vol.d - min (r % (vol.w - d)) vol.d)
          (by omega)
        exact ⟨k, by omega, by omega, by simpa [Tensor5.at_axis] using hk3⟩
    · simp only [Tensor5.axis_extent] at hse ⊢
      have hcond : min (r % (vol.w - d)) vol.h <
          min (r % (vol.w - d) + d) vol.h := by omega
      rw [hproj, get_projection_roi_one _ d (r % (vol.w - d)) hcond]
      refine ⟨_, rfl, rfl, rfl, ?_, ?_⟩
      · intro b c p q k hk1 hk2
        have hb := rangeMax_le (fun y => vol.data b c p y q)
          (min (r % (vol.w - d)) vol.h)
          (min (r % (vol.w - d) + d) vol.h - min (r % (vol.w - d)) vol.h)
          k (by omega) (by omega)
        simpa [Tensor5.at_axis] using hb
      · intro b c p q
        obtain ⟨k, hk1, hk2, hk3⟩ := rangeMax_attained
          (fun y => vol.data b c p y q) (min (r % (vol.w - d)) vol.h)
          (min (r % (vol.w - d) + d) vol.h - min (r % (vol.w - d)) vol.h)
          (by omega)
        exact ⟨k, by omega, by omega, by simpa [Tensor5.at_axis] using hk3⟩
    · simp only [Tensor5.axis_extent] at hse ⊢
      have hcond : min (r % (vol.w - d)) vol.w <
          min (r % (vol.w - d) + d) vol.w := by omega
      rw [hproj, get_projection_roi_two _ d (r % (vol.w - d)) hcond]
      refine ⟨_, rfl, rfl, rfl, ?_, ?_⟩
      · intro b c p q k hk1 hk2
        have hb := rangeMax_le (fun x => vol.data b c p q x)
          (min (r % (vol.w - d)) vol.w)
          (min (r % (vol.w - d) + d) vol.w - min (r % (vol.w - d)) vol.w)
          k (by omega) (by omega)
        simpa [Tensor5.at_axis] using hb
      · intro b c p q
        obtain ⟨k, hk1, hk2, hk3⟩ := rangeMax_attained
          (fun x => vol.data b c p q x) (min (r % (vol.w - d)) vol.w)
          (min (r % (vol.w - d) + d) vol.w - min (r % (vol.w - d)) vol.w)
          (by omega)
        exact ⟨k, by omega, by omega, by simpa [Tensor5.at_axis] using hk3⟩

/-- C1 amended at a concrete input: a 4×4×4 cube, depth 2, axis 0, raw draw 5
(start `5 % 2 = 1`). -/
theorem C1_get_projection_amended_witness :
    (vol4z.w ≤ 2 →
      (Volume.ofTensor vol4z).get_projection 2 0 5 =
        .error "ValueError: low >= high")
    ∧ (2 < vol4z.w →
        5 % (vol4z.w - 2) < vol4z.w - 2
        ∧ (∀ s, s < vol4z.w - 2 → s % (vol4z.w - 2) = s)
        ∧ (0 < 2 → 5 % (vol4z.w - 2) < vol4z.axis_extent 0 →
            ∃ m, (Volume.ofTensor vol4z).get_projection 2 0 5 = .ok m
              ∧ m.n = vol4z.n ∧ m.c = vol4z.c
              ∧ (∀ b c p q k, 5 % (vol4z.w - 2) ≤ k →
                  k < min (5 % (vol4z.w - 2) + 2) (vol4z.axis_extent 0) →
                  vol4z.at_axis 0 b c p q k ≤ m.data b c p q)
              ∧ (∀ b c p q, ∃ k, 5 % (vol4z.w - 2) ≤ k ∧
                  k < min (5 % (vol4z.w - 2) + 2) (vol4z.axis_extent 0) ∧
                  m.data b c p q = vol4z.at_axis 0 b c p q k))) :=
  C1_get_projection_amended vol4z 2 0 5 (by norm_num)

namespace AxialToLateralGANArtemisModel

/-- C7 amended: in every successful generator backward pass the
lateral-preservation loss is the L1 distance between a MIP along fixed axis 0
of the real volume taken at one randomly drawn depth window and a MIP along
axis 0 of the fake volume taken at an independently drawn window (the two
`get_projection` calls each draw their own start; the windows need not
coincide), multiplied by `lambda_lateralpreserve`. -/
theorem C7_lateral_preserve_amended (P : ModelParams) (ns : Nat)
    (real fake rec' : Tensor5) (src rA rB r3 r4 : Nat) (g : GLosses)
    (h : backward_G P ns real fake rec' src rA rB r3 r4 = .ok g) :
    ∃ mR mF,
      (Volume.ofTensor real).get_projection P.projection_depth 0 r3 = .ok mR
      ∧ (Volume.ofTensor fake).get_projection P.projection_depth 0 r4 = .ok mF
      ∧ g.loss_lateral_preserve = Tensor4.l1 mR mF * P.lambda_lateralpreserve := by
  obtain ⟨pAl, e1, h⟩ := exceptBind_ok.mp h
  obtain ⟨pAa, e2, h⟩ := exceptBind_ok.mp h
  obtain ⟨pAp, e3, h⟩ := exceptBind_ok.mp h
  obtain ⟨pBl, e4, h⟩ := exceptBind_ok.mp h
  obtain ⟨pBa, e5, h⟩ := exceptBind_ok.mp h
  obtain ⟨pBp, e6, h⟩ := exceptBind_ok.mp h
  obtain ⟨mR, e7, h⟩ := exceptBind_ok.mp h
  obtain ⟨mF, e8, h⟩ := exceptBind_ok.mp h
  injection h with h9
  refine ⟨mR, mF, e7, e8, ?_⟩
  rw [← h9]

/-- C7 amended at a concrete input: real = fake = the depth-graded cube,
raw draws 0 and 1 for the two lateral projections. -/
theorem C7_lateral_preserve_amended_witness :
    ∃ g, backward_G trivialParams 4 vol4z vol4z vol4z 0 0 0 0 1 = .ok g
      ∧ ∃ mR mF,
          (Volume.ofTensor vol4z).get_projection trivialParams.projection_depth
            0 0 = .ok mR
          ∧ (Volume.ofTensor vol4z).get_projection trivialParams.projection_depth
              0 1 = .ok mF
          ∧ g.loss_lateral_preserve =
              Tensor4.l1 mR mF * trivialParams.lambda_lateralpreserve :=
  ⟨_, rfl,
    C7_lateral_preserve_amended trivialParams 4 vol4z vol4z vol4z 0 0 0 0 1 _ rfl⟩

/-- C7 counterexample to the claim as stated ("the same MIP, same depth
window, of the fake volume"): with real = fake = the depth-graded 4-cube,
projection depth 2 and independent raw draws 0 and 1, the code computes
lateral-preservation loss `L1(mip at start 0, mip at start 1) * 1 = 1`,
while a same-window loss would be 0 for either of the two possible starts —
so no single shared depth window explains the computed loss. -/
theorem C7_lateral_preserve_counterexample :
    (∃ g, backward_G trivialParams 4 vol4z vol4z vol4z 0 0 0 0 1 = .ok g
       ∧ g.loss_lateral_preserve = Tensor4.l1 (mip4z 0) (mip4z 1) *
           trivialParams.lambda_lateralpreserve)
    ∧ Tensor4.l1 (mip4z 0) (mip4z 1) * trivialParams.lambda_lateralpreserve = 1
    ∧ (Volume.ofTensor vol4z).get_projection trivialParams.projection_depth 0 0
        = .ok (mip4z 0)
    ∧ (Volume.ofTensor vol4z).get_projection trivialParams.projection_depth 0 1
        = .ok (mip4z 1)
    ∧ Tensor4.l1 (mip4z 0) (mip4z 0) * trivialParams.lambda_lateralpreserve = 0
    ∧ Tensor4.l1 (mip4z 1) (mip4z 1) * trivialParams.lambda_lateralpreserve = 0
    ∧ (1 : ℚ) ≠ 0 := by
  refine ⟨⟨_, rfl, rfl⟩, ?_, rfl, rfl, ?_, ?_, by norm_num⟩
  · norm_num [Tensor4.l1, mip4z, trivialParams, Finset.sum_range_succ]
  · norm_num [Tensor4.l1, mip4z, trivialParams, Finset.sum_range_succ]
  · norm_num [Tensor4.l1, mip4z, trivialParams, Finset.sum_range_succ]

end AxialToLateralGANArtemisModel
